import Mathlib

/-!
Verification development for the j3s-music-upload acquisition pipeline.

The Rust sources are shallowly embedded: paths (`std::path::PathBuf`) are
component lists, handlers are pure functions from a configuration and an
oracle of collaborator results (database writes, external process exits,
directory contents) to an HTTP response together with the trace of side
effects the handler performed, and the persisted job row is an explicit
record updated by the embedded `update_upload_log_status`.
-/

namespace MusicUpload

/-- A filesystem path, viewed as its list of components
(the component view of a Rust `PathBuf`; `PathBuf::push` appends one
component, `PathBuf` equality is component-list equality). -/
abbrev FsPath := List String

/-- `PathBuf::push` of a single component. -/
def pathPush (p : FsPath) (c : String) : FsPath := p ++ [c]

/-- Rendering of a path for `Display`-style interpolation into strings
(components joined by the separator); used only as an opaque string. -/
def pathDisplay : FsPath → String
  | [] => ""
  | [c] => c
  | c :: cs => c ++ "/" ++ pathDisplay cs

/-! String primitives used by the handlers, implemented structurally over
character lists so that concrete runs reduce. They embed the Rust
`str`/`Path` operations the source calls. -/

/-- Whether the first list is a prefix of the second. -/
def listPre : List Char → List Char → Bool
  | [], _ => true
  | _ :: _, [] => false
  | p :: ps, c :: cs => p = c && listPre ps cs

/-- Whether `pat` occurs as a contiguous sublist. -/
def charsHas (pat : List Char) : List Char → Bool
  | [] => pat.isEmpty
  | c :: cs => listPre pat (c :: cs) || charsHas pat cs

/-- Rust `str::contains` with a string pattern. -/
def hasSubstr (s pat : String) : Bool := charsHas pat.data s.data

/-- Rust `str::starts_with`. -/
def strStarts (s pat : String) : Bool := listPre pat.data s.data

/-- Rust `str::contains` with a `char` pattern. -/
def strContainsChar (s : String) (c : Char) : Bool := s.data.contains c

/-- Rust `str::trim`: strip leading and trailing whitespace. -/
def strTrim (s : String) : String :=
  String.mk (((s.data.dropWhile Char.isWhitespace).reverse.dropWhile
    Char.isWhitespace).reverse)

/-- Rust `str::len`: the UTF-8 byte length. -/
def utf8Len (s : String) : Nat := s.data.foldl (fun n c => n + c.utf8Size) 0

/-- Split a character list on a separator character. -/
def splitOnChar (sep : Char) : List Char → List (List Char)
  | [] => [[]]
  | c :: cs =>
    match splitOnChar sep cs with
    | [] => [[]]
    | cur :: rest => if c = sep then [] :: cur :: rest else (c :: cur) :: rest

/-- The decimal digit character for `n < 10`. -/
def digitChar (n : Nat) : Char := Char.ofNat (48 + n)

/-- Decimal digits of `n`, with enough fuel to terminate structurally. -/
def natToStringAux : Nat → Nat → List Char
  | 0, _ => []
  | fuel + 1, n =>
    if n < 10 then [digitChar n]
    else natToStringAux fuel (n / 10) ++ [digitChar (n % 10)]

/-- Decimal rendering of a natural number (Rust `Display` for integers). -/
def natToString (n : Nat) : String := String.mk (natToStringAux (n + 1) n)

/-- Decimal rendering of an integer. -/
def intToString : Int → String
  | .ofNat n => natToString n
  | .negSucc n => "-" ++ natToString (n + 1)

/-! ## Configuration (src/config.rs)

`PathsConfig.ferric_enabled` and the whole `SpotifyConfig` section are
referenced by the handlers (`state.config.paths.ferric_enabled`,
`state.config.spotify.*`) but their declarations are not present in the
`src/` snapshot; they are modelled from those call sites and the spec. -/

structure PathsConfig where
  music_dir : FsPath
  temp_dir : FsPath
  ferric_path : String
  /-- Modelled from the spec: static default of the per-deployment
  "external organizer enabled" flag (§4.6 step 8, §9 two-tier lookup);
  the field is read at the handlers' call sites but is absent from the
  `PathsConfig` declaration in the snapshot. -/
  ferric_enabled : Bool
deriving DecidableEq, Repr

structure UploadConfig where
  max_file_size_mb : Nat
  allowed_extensions : List String
deriving DecidableEq, Repr

structure YoutubeConfig where
  enabled : Bool
  ytdlp_path : String
  audio_format : String
  format_selector : String
  player_client : Option String
  extra_args : List String
deriving DecidableEq, Repr

/-- Modelled from the spec: the Spotify configuration section is read by
`download_spotify` (`enabled`, `spotdl_path`, `audio_format`) but its
declaration is not in the `src/` snapshot of config.rs. -/
structure SpotifyConfig where
  enabled : Bool
  spotdl_path : String
  audio_format : String
deriving DecidableEq, Repr

structure Config where
  paths : PathsConfig
  upload : UploadConfig
  youtube : YoutubeConfig
  spotify : SpotifyConfig
deriving DecidableEq, Repr

/-- `Config::max_file_size_bytes`: `(max_file_size_mb * 1024 * 1024) as usize`
with `u64` arithmetic (reduced mod `2^64`). -/
def maxFileSizeBytes (c : Config) : Nat :=
  c.upload.max_file_size_mb * 1024 * 1024 % (2 ^ 64)

/-! ## Directory resolution (src/paths.rs) -/

/-- `get_user_music_dir`: the user's `library_path` if set, redirected to
`music_dir/default` when it equals the global music root; the global
`music_dir` when unset. -/
def get_user_music_dir (config : Config) (library_path : Option FsPath) : FsPath :=
  match library_path with
  | some path =>
      let user_path := path
      if user_path = config.paths.music_dir then
        pathPush config.paths.music_dir "default"
      else
        user_path
  | none => config.paths.music_dir

/-- `get_user_temp_dir`: `library_path/tmp` if set, falling back to the
global `temp_dir` when unset or when `library_path` equals the global
music root. -/
def get_user_temp_dir (config : Config) (library_path : Option FsPath) : FsPath :=
  match library_path with
  | some path =>
      let user_path := path
      if user_path = config.paths.music_dir then
        config.paths.temp_dir
      else
        pathPush user_path "tmp"
  | none => config.paths.temp_dir

/-! ## Job rows and status updates (src/db.rs, src/models.rs) -/

/-- The mutable columns of one `upload_logs` row that
`update_upload_log_status` touches, plus `status`. `completed_at` holds
the abstract timestamp of the write that stamped it. -/
structure UploadLogRow where
  status : String
  file_count : Option Int
  error_message : Option String
  completed_at : Option Nat
deriving DecidableEq, Repr

/-- Modelled from the spec: the row produced by `create_upload_log`'s
`INSERT` takes its `status`/`file_count`/`error_message`/`completed_at`
from column defaults in the migrations, which are not in the `src/`
snapshot; §4.4 makes `pending` the implicit state at creation and §3
makes the other three nullable (null until set). -/
def newUploadLogRow : UploadLogRow :=
  { status := "pending", file_count := none, error_message := none, completed_at := none }

/-- Whether a status string is terminal, exactly the test
`status == "completed" || status == "failed"` of `update_upload_log_status`. -/
def terminalStatus (status : String) : Bool :=
  status = "completed" || status = "failed"

/-- The SQL string assembled by `update_upload_log_status`: optional
fragments are appended for a supplied `file_count` and `error_message`,
and `completed_at` is stamped in the same statement exactly when the new
status is terminal. -/
def buildUpdateStatusQuery (status : String) (file_count : Option Int)
    (error_message : Option String) : String :=
  let q := "UPDATE upload_logs SET status = ?"
  let q := if file_count.isSome then q ++ ", file_count = ?" else q
  let q := if error_message.isSome then q ++ ", error_message = ?" else q
  let q := if terminalStatus status then q ++ ", completed_at = CURRENT_TIMESTAMP" else q
  q ++ " WHERE id = ?"

/-- Row semantics of the `update_upload_log_status` statement: `status` is
always overwritten, `file_count` and `error_message` only when supplied,
and `completed_at` is set to the write's timestamp exactly when the new
status is terminal (otherwise left as it was). -/
def update_upload_log_status (row : UploadLogRow) (status : String)
    (file_count : Option Int) (error_message : Option String) (now : Nat) : UploadLogRow :=
  { status := status
    file_count := match file_count with | some c => some c | none => row.file_count
    error_message := match error_message with | some e => some e | none => row.error_message
    completed_at := if terminalStatus status then some now else row.completed_at }

/-- The shapes of all `update_upload_log_status` call sites in the three
handlers (youtube.rs, spotify.rs, upload.rs): a `processing` write carries
neither `file_count` nor `error_message`; a `completed` write carries a
`file_count` and no `error_message`; a `failed` write carries both. -/
def handlerStatusWrite (status : String) (file_count : Option Int)
    (error_message : Option String) : Bool :=
  (status = "processing" && file_count.isNone && error_message.isNone) ||
  (status = "completed" && file_count.isSome && error_message.isNone) ||
  (status = "failed" && file_count.isSome && error_message.isSome)

/-- The spec's row invariant (§3): `completed_at` is non-null iff the
status is terminal, and `error_message` is non-null only on `failed`. -/
def logInvariant (row : UploadLogRow) : Prop :=
  (row.completed_at ≠ none ↔ terminalStatus row.status = true) ∧
  (row.error_message ≠ none → row.status = "failed")

/-! ## URL validation (src/handlers/youtube.rs, src/handlers/spotify.rs) -/

/-- The backquote character, one of the blacklisted shell metacharacters. -/
def backquoteChar : Char := Char.ofNat 96

/-- The `is_valid` expression of `download_youtube` (applied to the
already-trimmed URL): one of four HTTPS YouTube prefixes, and none of the
blacklisted shell metacharacters. -/
def youtube_url_is_valid (url : String) : Bool :=
  (strStarts url "https://www.youtube.com/watch?v=" ||
      strStarts url "https://youtube.com/watch?v=" ||
      strStarts url "https://youtu.be/" ||
      strStarts url "https://m.youtube.com/watch?v=") &&
    !(strContainsChar url ';') &&
    !(strContainsChar url '|') &&
    !(strContainsChar url backquoteChar) &&
    !(strContainsChar url '$') &&
    !(hasSubstr url "&&") &&
    !(hasSubstr url "||")

/-- The `is_valid` expression of `download_spotify` (applied to the
already-trimmed URL): one of four HTTPS open.spotify.com prefixes, and
none of the blacklisted shell metacharacters. -/
def spotify_url_is_valid (url : String) : Bool :=
  (strStarts url "https://open.spotify.com/track/" ||
      strStarts url "https://open.spotify.com/album/" ||
      strStarts url "https://open.spotify.com/playlist/" ||
      strStarts url "https://open.spotify.com/artist/") &&
    !(strContainsChar url ';') &&
    !(strContainsChar url '|') &&
    !(strContainsChar url backquoteChar) &&
    !(strContainsChar url '$') &&
    !(hasSubstr url "&&") &&
    !(hasSubstr url "||")

/-! ## External tool argument builders -/

/-- `build_ytdlp_args` (youtube.rs): fixed flags, the output pattern
`{temp_dir}/%(title)s.%(ext)s`, then the optional format selector, the
optional player-client extractor argument, the operator's `extra_args`
(extended only when non-empty, which is the identity extension when
empty), and finally the URL. -/
def build_ytdlp_args (config : Config) (temp_dir : FsPath) (url : String) : List String :=
  let args := ["--no-warnings", "--extract-audio",
    "--audio-format", config.youtube.audio_format,
    "--output", pathDisplay temp_dir ++ "/%(title)s.%(ext)s",
    "--no-playlist", "--ignore-no-formats-error"]
  let format_selector := strTrim config.youtube.format_selector
  let args := if format_selector ≠ "" then
      args ++ ["--format", format_selector]
    else args
  let args := match config.youtube.player_client with
    | some client =>
        let trimmed := strTrim client
        if trimmed ≠ "" then
          args ++ ["--extractor-args", "youtube:player_client=" ++ trimmed]
        else args
    | none => args
  let args := if config.youtube.extra_args ≠ [] then
      args ++ config.youtube.extra_args
    else args
  args ++ [url]

/-- `build_spotdl_args` (spotify.rs): the `download` subcommand, the URL,
the output file pattern, and the configured audio format. -/
def build_spotdl_args (config : Config) (temp_dir : FsPath) (url : String) : List String :=
  let output_pattern := pathDisplay temp_dir ++ "/{artist} - {title}.{output-ext}"
  ["download", url, "--output", output_pattern, "--format", config.spotify.audio_format]

/-! ## Side effects and oracles

A handler run is embedded as a pure function from the configuration, the
request, and an oracle of collaborator results (database call results,
external process exits, directory contents) to the HTTP response, the
ordered trace of side effects attempted, and the plain files left in the
user's temp directory. External tools are assumed not to delete their
input files themselves; every drain of `temp_dir` in the model comes from
the handlers' explicit cleanup loops, as in the source. -/

inductive Effect where
  | ensureDir (p : FsPath)
  | createLog (user_id upload_type source : String)
  | updateStatus (id : Int) (status : String) (file_count : Option Int)
      (error_message : Option String)
  | spawn (exe : String) (args : List String)
  | writeFile (p : FsPath)
  | copyFile (src dst : FsPath)
  | removeFile (p : FsPath)
  | sendProgress (session_id message : String)
  | unregisterLater (session_id : String)
deriving DecidableEq, Repr

inductive HttpResponse where
  | okJson (message : String) (log_id : Option Int) (session_id : Option String)
  | forbidden (error : String)
  | badRequest (error : String)
  | internalServerError (error : String)
deriving DecidableEq, Repr

/-- Results of the collaborators a handler consults, fixed up front. -/
structure Oracle where
  /-- `db.get_user_by_id`: an error, or the user's `library_path`. -/
  getUser : Except String (Option FsPath)
  /-- `get_user_directories` directory creation: `some` error or success. -/
  ensureDirsErr : Option String
  /-- `db.create_upload_log`: an error, or the new log id. -/
  createLog : Except String Int
  processingWrite : Except String Unit
  completedWrite : Except String Unit
  failedWrite : Except String Unit
  /-- The fetch tool run: Err stderr, or the plain files it downloaded. -/
  fetch : Except String (List String)
  /-- Plain files a failed fetch left behind in `temp_dir`. -/
  fetchPartial : List String
  /-- The tagging tool run: Err stderr, or success. -/
  ferric : Except String Unit
  /-- The runtime config store's `ferric_enabled` value, when present. -/
  dbFerricSetting : Option Bool
  /-- Plain files already present in the user's `temp_dir`. -/
  tempFiles0 : List String

/-- Modelled from the spec: `Database::get_ferric_enabled` is called by
the Spotify and upload handlers but its definition is not in the `src/`
snapshot of db.rs; per §9 the runtime store's value is returned when
present and its absence surfaces as the error the call sites' `unwrap_or`
then catches. -/
def get_ferric_enabled (store : Option Bool) : Except String Bool :=
  match store with
  | some b => .ok b
  | none => .error "ferric_enabled not set in config store"

/-- The call sites' two-tier lookup:
`db.get_ferric_enabled(&config).await.unwrap_or(config.paths.ferric_enabled)`. -/
def effectiveFerricEnabled (config : Config) (store : Option Bool) : Bool :=
  match get_ferric_enabled store with
  | .ok b => b
  | .error _ => config.paths.ferric_enabled

/-- Outcome of one of the `process_temp_dir` / `process_with_ferric`
helpers: the `bail!` error if any, the effects performed, and the plain
files remaining in `temp_dir`. -/
structure ProcOutcome where
  err : Option String
  effects : List Effect
  tempFiles : List String
deriving DecidableEq, Repr

/-- The Ferric invocation shared by all three helpers:
`ferric --input-dir {temp_dir} --output-dir {music_dir}`. -/
def ferricSpawn (config : Config) (temp_dir music_dir : FsPath) : Effect :=
  .spawn config.paths.ferric_path
    ["--input-dir", pathDisplay temp_dir, "--output-dir", pathDisplay music_dir]

/-- `process_temp_dir` of youtube.rs: unconditionally runs Ferric (no
organizer-enabled flag is consulted); on failure it bails before any
cleanup, on success the cleanup loop removes every plain file. -/
def youtube_process_temp_dir (config : Config) (ferric : Except String Unit)
    (temp_dir music_dir : FsPath) (tempFiles : List String) : ProcOutcome :=
  match ferric with
  | .error e =>
      ⟨some ("Ferric processing failed: " ++ e), [ferricSpawn config temp_dir music_dir],
        tempFiles⟩
  | .ok _ =>
      ⟨none, ferricSpawn config temp_dir music_dir ::
          tempFiles.map (fun f => Effect.removeFile (pathPush temp_dir f)), []⟩

/-- `process_temp_dir` of spotify.rs: consults the effective
organizer-enabled flag; when enabled it runs Ferric (bailing before
cleanup on failure), when disabled it copy-then-deletes every plain file
into `music_dir`; the final cleanup loop then removes whatever plain
files remain. -/
def spotify_process_temp_dir (config : Config) (store : Option Bool)
    (ferric : Except String Unit) (temp_dir music_dir : FsPath)
    (tempFiles : List String) : ProcOutcome :=
  let ferric_enabled := effectiveFerricEnabled config store
  if ferric_enabled then
    match ferric with
    | .error e =>
        ⟨some ("Ferric processing failed: " ++ e), [ferricSpawn config temp_dir music_dir],
          tempFiles⟩
    | .ok _ =>
        ⟨none, ferricSpawn config temp_dir music_dir ::
            tempFiles.map (fun f => Effect.removeFile (pathPush temp_dir f)), []⟩
  else
    let moveEffs := (tempFiles.map (fun f =>
        [Effect.copyFile (pathPush temp_dir f) (pathPush music_dir f),
          Effect.removeFile (pathPush temp_dir f)])).flatten
    ⟨none, moveEffs, []⟩

/-- Result of one handler run. -/
structure RunResult where
  response : HttpResponse
  effects : List Effect
  tempFiles : List String
deriving DecidableEq, Repr

/-- `download_youtube` (youtube.rs): enabled gate, user lookup, directory
resolution, URL validation, log creation, `processing` write, yt-dlp run,
Ferric processing, and the terminal status write; `failed` writes are
best-effort (`.ok()`), `processing`/`completed` writes abort on error. -/
def downloadYoutube (config : Config) (o : Oracle) (user_id reqUrl : String) : RunResult :=
  if !config.youtube.enabled then
    ⟨.forbidden "YouTube downloads are disabled", [], o.tempFiles0⟩
  else
    match o.getUser with
    | .error e => ⟨.internalServerError ("Failed to get user: " ++ e), [], o.tempFiles0⟩
    | .ok library_path =>
      let music_dir := get_user_music_dir config library_path
      let temp_dir := get_user_temp_dir config library_path
      let dirEffs : List Effect := [.ensureDir music_dir, .ensureDir temp_dir]
      match o.ensureDirsErr with
      | some e =>
          ⟨.internalServerError ("Failed to get user directories: " ++ e), dirEffs, o.tempFiles0⟩
      | none =>
        let url := strTrim reqUrl
        let is_valid := youtube_url_is_valid url
        if !is_valid || utf8Len url > 200 then
          ⟨.badRequest "Invalid YouTube URL format. Must be a standard HTTPS YouTube watch URL.",
            dirEffs, o.tempFiles0⟩
        else
          match o.createLog with
          | .error e =>
              ⟨.internalServerError ("Failed to create upload log: " ++ e),
                dirEffs ++ [.createLog user_id "youtube" reqUrl], o.tempFiles0⟩
          | .ok log_id =>
            let effs := dirEffs ++ [.createLog user_id "youtube" reqUrl,
                .updateStatus log_id "processing" none none]
            match o.processingWrite with
            | .error e => ⟨.internalServerError ("Failed to update log: " ++ e), effs, o.tempFiles0⟩
            | .ok _ =>
              let fetchEff := Effect.spawn config.youtube.ytdlp_path
                  (build_ytdlp_args config temp_dir reqUrl)
              match o.fetch with
              | .error e =>
                  let error_msg := "Download failed: " ++ ("yt-dlp failed: " ++ e)
                  ⟨.internalServerError error_msg,
                    effs ++ [fetchEff, .updateStatus log_id "failed" (some 0) (some error_msg)],
                    o.tempFiles0 ++ o.fetchPartial⟩
              | .ok downloaded =>
                  let tempAfter := o.tempFiles0 ++ downloaded
                  let file_count : Int := tempAfter.length
                  let proc := youtube_process_temp_dir config o.ferric temp_dir music_dir tempAfter
                  let effs := effs ++ fetchEff :: proc.effects
                  match proc.err with
                  | some e =>
                      let error_msg := "Processing failed: " ++ e
                      ⟨.internalServerError error_msg,
                        effs ++ [.updateStatus log_id "failed" (some file_count) (some error_msg)],
                        proc.tempFiles⟩
                  | none =>
                      match o.completedWrite with
                      | .error e =>
                          ⟨.internalServerError ("Failed to update log: " ++ e),
                            effs ++ [.updateStatus log_id "completed" (some file_count) none],
                            proc.tempFiles⟩
                      | .ok _ =>
                          ⟨.okJson ("Successfully downloaded and processed " ++
                                intToString file_count ++ " file(s)") (some log_id) none,
                            effs ++ [.updateStatus log_id "completed" (some file_count) none],
                            proc.tempFiles⟩

/-- `download_spotify` (spotify.rs): as `download_youtube`, with progress
messages on an ephemeral session, the spotdl argument shape, and a
`process_temp_dir` that consults the organizer-enabled flag. -/
def downloadSpotify (config : Config) (o : Oracle) (session_id user_id reqUrl : String) :
    RunResult :=
  if !config.spotify.enabled then
    ⟨.forbidden "Spotify downloads are disabled", [], o.tempFiles0⟩
  else
    match o.getUser with
    | .error e => ⟨.internalServerError ("Failed to get user: " ++ e), [], o.tempFiles0⟩
    | .ok library_path =>
      let music_dir := get_user_music_dir config library_path
      let temp_dir := get_user_temp_dir config library_path
      let dirEffs : List Effect := [.ensureDir music_dir, .ensureDir temp_dir]
      match o.ensureDirsErr with
      | some e =>
          ⟨.internalServerError ("Failed to get user directories: " ++ e), dirEffs, o.tempFiles0⟩
      | none =>
        let url := strTrim reqUrl
        let is_valid := spotify_url_is_valid url
        if !is_valid || utf8Len url > 300 then
          ⟨.badRequest
              "Invalid Spotify URL format. Must be a standard HTTPS Spotify URL (track, album, playlist, or artist).",
            dirEffs, o.tempFiles0⟩
        else
          let effs := dirEffs ++ [.sendProgress session_id "Starting Spotify download..."]
          match o.createLog with
          | .error e =>
              ⟨.internalServerError ("Failed to create upload log: " ++ e),
                effs ++ [.createLog user_id "spotify" reqUrl], o.tempFiles0⟩
          | .ok log_id =>
            let effs := effs ++ [.createLog user_id "spotify" reqUrl,
                .updateStatus log_id "processing" none none]
            match o.processingWrite with
            | .error e => ⟨.internalServerError ("Failed to update log: " ++ e), effs, o.tempFiles0⟩
            | .ok _ =>
              let effs := effs ++ [.sendProgress session_id "Downloading from Spotify..."]
              let fetchEff := Effect.spawn config.spotify.spotdl_path
                  (build_spotdl_args config temp_dir reqUrl)
              match o.fetch with
              | .error e =>
                  let error_msg := "Download failed: " ++ ("spotdl failed: " ++ e)
                  ⟨.internalServerError error_msg,
                    effs ++ [fetchEff, .updateStatus log_id "failed" (some 0) (some error_msg)],
                    o.tempFiles0 ++ o.fetchPartial⟩
              | .ok downloaded =>
                  let tempAfter := o.tempFiles0 ++ downloaded
                  let file_count : Int := tempAfter.length
                  let effs := effs ++ [fetchEff,
                      .sendProgress session_id ("Downloaded " ++ intToString file_count ++
                        " file(s), now processing...")]
                  let proc := spotify_process_temp_dir config o.dbFerricSetting o.ferric
                      temp_dir music_dir tempAfter
                  let effs := effs ++ proc.effects
                  match proc.err with
                  | some e =>
                      let error_msg := "Processing failed: " ++ e
                      ⟨.internalServerError error_msg,
                        effs ++ [.updateStatus log_id "failed" (some file_count) (some error_msg)],
                        proc.tempFiles⟩
                  | none =>
                      match o.completedWrite with
                      | .error e =>
                          ⟨.internalServerError ("Failed to update log: " ++ e),
                            effs ++ [.updateStatus log_id "completed" (some file_count) none],
                            proc.tempFiles⟩
                      | .ok _ =>
                          ⟨.okJson ("Successfully downloaded and processed " ++
                                intToString file_count ++ " file(s)") (some log_id) (some session_id),
                            effs ++ [.updateStatus log_id "completed" (some file_count) none,
                              .sendProgress session_id "✓ Complete!",
                              .unregisterLater session_id],
                            proc.tempFiles⟩

/-! ## Multipart upload (src/handlers/upload.rs) -/

/-- One multipart part: its client-supplied filename (absent parts are
skipped by the handler) and its payload size in bytes. -/
structure Part where
  file_name : Option String
  size : Nat
deriving DecidableEq, Repr

/-- `Path::new(&file_name).file_name().and_then(to_str)` on a
client-supplied string (Unix separator): the last non-empty, non-`.`
slash-separated component, or `none` when there is none or the path
terminates in `..`. -/
def fileNameComponent (s : String) : Option String :=
  let parts := ((splitOnChar '/' s.data).map String.mk).filter (fun c => c ≠ "" && c ≠ ".")
  match parts.getLast? with
  | none => none
  | some last => if last = ".." then none else some last

/-- `Path::extension().unwrap_or("")` on an already-sanitized file name:
the portion after the last dot, the empty string when there is no dot or
the only dot leads a hidden file. -/
def extensionOf (name : String) : String :=
  match (splitOnChar '.' name.data).map String.mk with
  | [] => ""
  | [_] => ""
  | first :: rest =>
      if first = "" && rest.length = 1 then "" else (rest.getLast?).getD ""

/-- Outcome of the per-part loop of `upload_files`: an early abort with a
response, or the accepted count, sanitized names, effects, and temp
contents at loop exit. -/
inductive LoopResult where
  | aborted (response : HttpResponse) (effects : List Effect) (tempFiles : List String)
  | done (file_count : Nat) (uploaded : List String) (effects : List Effect)
      (tempFiles : List String)
deriving DecidableEq, Repr

/-- The per-part loop of `upload_files`: skip parts without a filename,
abort with a plain internal error when the last path component cannot be
extracted, abort with a best-effort `failed` write and a `BadRequest` on
a traversal pattern, a disallowed extension, or an oversized payload, and
otherwise write the file into `temp_dir` under the sanitized name. -/
def uploadLoop (config : Config) (log_id : Int) (temp_dir : FsPath) :
    List Part → Nat → List String → List Effect → List String → LoopResult
  | [], file_count, uploaded, effects, temp => .done file_count uploaded effects temp
  | part :: rest, file_count, uploaded, effects, temp =>
    match part.file_name with
    | none => uploadLoop config log_id temp_dir rest file_count uploaded effects temp
    | some name =>
      match fileNameComponent name with
      | none => .aborted (.internalServerError "Invalid filename") effects temp
      | some sanitized =>
        if hasSubstr sanitized ".." || strContainsChar sanitized '/' ||
            strContainsChar sanitized '\\' then
          let error_msg := "Invalid filename: path traversal attempt detected"
          .aborted (.badRequest error_msg)
            (effects ++ [.updateStatus log_id "failed" (some (file_count : Int)) (some error_msg)])
            temp
        else
          let extension := extensionOf sanitized
          if !(config.upload.allowed_extensions.contains extension) then
            let error_msg := "File type ." ++ extension ++ " not allowed"
            .aborted (.badRequest error_msg)
              (effects ++
                [.updateStatus log_id "failed" (some (file_count : Int)) (some error_msg)])
              temp
          else if part.size > maxFileSizeBytes config then
            let error_msg := "File too large: " ++ natToString (part.size / 1024 / 1024) ++
                " MB (max: " ++ natToString config.upload.max_file_size_mb ++ " MB)"
            .aborted (.badRequest error_msg)
              (effects ++
                [.updateStatus log_id "failed" (some (file_count : Int)) (some error_msg)])
              temp
          else
            uploadLoop config log_id temp_dir rest (file_count + 1) (uploaded ++ [sanitized])
              (effects ++ [.writeFile (pathPush temp_dir sanitized)]) (temp ++ [sanitized])

/-- `process_with_ferric` (upload.rs): like the Spotify helper but it
moves and cleans up only this request's `files` rather than scanning the
whole temp directory. -/
def upload_process_with_ferric (config : Config) (store : Option Bool)
    (ferric : Except String Unit) (temp_dir music_dir : FsPath)
    (uploaded : List String) (tempFiles : List String) : ProcOutcome :=
  let ferric_enabled := effectiveFerricEnabled config store
  if ferric_enabled then
    match ferric with
    | .error e =>
        ⟨some ("Ferric processing failed: " ++ e), [ferricSpawn config temp_dir music_dir],
          tempFiles⟩
    | .ok _ =>
        ⟨none, ferricSpawn config temp_dir music_dir ::
            uploaded.map (fun f => Effect.removeFile (pathPush temp_dir f)),
          tempFiles.filter (fun f => !(uploaded.contains f))⟩
  else
    let moveEffs := (uploaded.map (fun f =>
        [Effect.copyFile (pathPush temp_dir f) (pathPush music_dir f),
          Effect.removeFile (pathPush temp_dir f)])).flatten
    ⟨none, moveEffs, tempFiles.filter (fun f => !(uploaded.contains f))⟩

/-- `upload_files` (upload.rs): user lookup, directory resolution, log
creation and `processing` write, then the per-part validation loop, the
no-files check, Ferric-or-move processing, and the terminal status
write. -/
def uploadFiles (config : Config) (o : Oracle) (user_id : String) (parts : List Part) :
    RunResult :=
  match o.getUser with
  | .error e => ⟨.internalServerError ("Failed to get user: " ++ e), [], o.tempFiles0⟩
  | .ok library_path =>
    let music_dir := get_user_music_dir config library_path
    let temp_dir := get_user_temp_dir config library_path
    let dirEffs : List Effect := [.ensureDir music_dir, .ensureDir temp_dir]
    match o.ensureDirsErr with
    | some e =>
        ⟨.internalServerError ("Failed to get user directories: " ++ e), dirEffs, o.tempFiles0⟩
    | none =>
      match o.createLog with
      | .error e =>
          ⟨.internalServerError ("Failed to create upload log: " ++ e),
            dirEffs ++ [.createLog user_id "file" "multipart upload"], o.tempFiles0⟩
      | .ok log_id =>
        let effs := dirEffs ++ [.createLog user_id "file" "multipart upload",
            .updateStatus log_id "processing" none none]
        match o.processingWrite with
        | .error e => ⟨.internalServerError ("Failed to update log: " ++ e), effs, o.tempFiles0⟩
        | .ok _ =>
          match uploadLoop config log_id temp_dir parts 0 [] effs o.tempFiles0 with
          | .aborted response effects temp => ⟨response, effects, temp⟩
          | .done file_count uploaded effects temp =>
            if uploaded = [] then
              ⟨.badRequest "No files uploaded",
                effects ++ [.updateStatus log_id "failed" (some 0) (some "No files uploaded")],
                temp⟩
            else
              let proc := upload_process_with_ferric config o.dbFerricSetting o.ferric
                  temp_dir music_dir uploaded temp
              let effects := effects ++ proc.effects
              match proc.err with
              | some e =>
                  let error_msg := "Processing failed: " ++ e
                  ⟨.internalServerError error_msg,
                    effects ++
                      [.updateStatus log_id "failed" (some (file_count : Int)) (some error_msg)],
                    proc.tempFiles⟩
              | none =>
                  match o.completedWrite with
                  | .error e =>
                      ⟨.internalServerError ("Failed to update log: " ++ e),
                        effects ++
                          [.updateStatus log_id "completed" (some (file_count : Int)) none],
                        proc.tempFiles⟩
                  | .ok _ =>
                      ⟨.okJson ("Successfully uploaded and processed " ++
                            natToString file_count ++ " file(s)") (some log_id) none,
                        effects ++
                          [.updateStatus log_id "completed" (some (file_count : Int)) none],
                        proc.tempFiles⟩

/-! ## Effect classifiers and sample values -/

/-- Whether an effect is a job-row creation. -/
def isCreateLog : Effect → Bool
  | .createLog _ _ _ => true
  | _ => false

/-- Whether an effect is an external process spawn. -/
def isSpawn : Effect → Bool
  | .spawn _ _ => true
  | _ => false

/-- Whether an effect is a file copy. -/
def isCopy : Effect → Bool
  | .copyFile _ _ => true
  | _ => false

/-- Whether an effect is a spawn of the configured tagging tool. -/
def isFerricSpawn (config : Config) : Effect → Bool
  | .spawn exe _ => exe = config.paths.ferric_path
  | _ => false

/-- A concrete configuration (the defaults of `Config::default`). -/
def sampleConfig : Config :=
  { paths :=
      { music_dir := ["tmp", "music"], temp_dir := ["tmp", "music_upload"],
        ferric_path := "/usr/local/bin/ferric", ferric_enabled := true }
    upload :=
      { max_file_size_mb := 500,
        allowed_extensions := ["mp3", "flac", "ogg", "opus", "m4a", "wav", "aac"] }
    youtube :=
      { enabled := true, ytdlp_path := "yt-dlp", audio_format := "best",
        format_selector := "bestaudio/best", player_client := some "web", extra_args := [] }
    spotify := { enabled := true, spotdl_path := "spotdl", audio_format := "opus" } }

/-- A concrete oracle where every collaborator call succeeds. -/
def sampleOracle : Oracle :=
  { getUser := .ok none, ensureDirsErr := none, createLog := .ok 1
    processingWrite := .ok (), completedWrite := .ok (), failedWrite := .ok ()
    fetch := .ok ["a.opus"], fetchPartial := [], ferric := .ok ()
    dbFerricSetting := none, tempFiles0 := [] }

/-! ## C2 — directory resolution with an override -/

/-- C2: for every configuration and user library-path override, an
override equal to the global music root resolves to the root's `default`
subdirectory with the global temp directory, and any other override
resolves to itself with its own `tmp` subdirectory. -/
theorem resolve_with_override_spec (config : Config) (p : FsPath) :
    (p = config.paths.music_dir →
      get_user_music_dir config (some p) = config.paths.music_dir ++ ["default"] ∧
      get_user_temp_dir config (some p) = config.paths.temp_dir) ∧
    (p ≠ config.paths.music_dir →
      get_user_music_dir config (some p) = p ∧
      get_user_temp_dir config (some p) = p ++ ["tmp"]) := by
  constructor
  · intro h
    simp [get_user_music_dir, get_user_temp_dir, pathPush, h]
  · intro h
    simp [get_user_music_dir, get_user_temp_dir, pathPush, h]

/-- Witness for C2: both branches at concrete paths. -/
theorem resolve_with_override_spec_witness :
    (get_user_music_dir sampleConfig (some ["tmp", "music"]) =
        sampleConfig.paths.music_dir ++ ["default"] ∧
      get_user_temp_dir sampleConfig (some ["tmp", "music"]) = sampleConfig.paths.temp_dir) ∧
    (get_user_music_dir sampleConfig (some ["srv", "m"]) = ["srv", "m"] ∧
      get_user_temp_dir sampleConfig (some ["srv", "m"]) = ["srv", "m"] ++ ["tmp"]) :=
  ⟨(resolve_with_override_spec sampleConfig ["tmp", "music"]).1 (by decide),
    (resolve_with_override_spec sampleConfig ["srv", "m"]).2 (by decide)⟩

/-! ## C10 — directory resolution without an override -/

/-- C10: with no library-path override, resolution returns the bare
global music root (never its `default` subdirectory) and the global temp
directory; the collision redirect applies only to explicit overrides. -/
theorem resolve_without_override_spec (config : Config) :
    get_user_music_dir config none = config.paths.music_dir ∧
    get_user_temp_dir config none = config.paths.temp_dir ∧
    get_user_music_dir config none ≠ pathPush config.paths.music_dir "default" := by
  refine ⟨rfl, rfl, fun h => ?_⟩
  have hlen := congrArg List.length h
  simp [get_user_music_dir, pathPush] at hlen

/-! ## C9 — yt-dlp argument vector -/

/-- C9: the yt-dlp argument builder is exactly the fixed flags with the
`{temp_dir}/%(title)s.%(ext)s` output pattern, then the format selector
only when non-empty after trimming, then the player-client extractor
argument only when configured and non-empty after trimming, then the
operator's `extra_args`, and the URL always last. -/
theorem build_ytdlp_args_spec (config : Config) (temp_dir : FsPath) (url : String) :
    build_ytdlp_args config temp_dir url =
      ["--no-warnings", "--extract-audio",
          "--audio-format", config.youtube.audio_format,
          "--output", pathDisplay temp_dir ++ "/%(title)s.%(ext)s",
          "--no-playlist", "--ignore-no-formats-error"] ++
        (if strTrim config.youtube.format_selector ≠ "" then
          ["--format", strTrim config.youtube.format_selector]
        else []) ++
        (match config.youtube.player_client with
          | some client =>
              if strTrim client ≠ "" then
                ["--extractor-args", "youtube:player_client=" ++ strTrim client]
              else []
          | none => []) ++
        config.youtube.extra_args ++ [url] ∧
    (build_ytdlp_args config temp_dir url).getLast? = some url := by
  have hargs : build_ytdlp_args config temp_dir url =
      ["--no-warnings", "--extract-audio",
          "--audio-format", config.youtube.audio_format,
          "--output", pathDisplay temp_dir ++ "/%(title)s.%(ext)s",
          "--no-playlist", "--ignore-no-formats-error"] ++
        (if strTrim config.youtube.format_selector ≠ "" then
          ["--format", strTrim config.youtube.format_selector]
        else []) ++
        (match config.youtube.player_client with
          | some client =>
              if strTrim client ≠ "" then
                ["--extractor-args", "youtube:player_client=" ++ strTrim client]
              else []
          | none => []) ++
        config.youtube.extra_args ++ [url] := by
    unfold build_ytdlp_args
    rcases hpc : config.youtube.player_client with _ | client <;>
      by_cases hfs : strTrim config.youtube.format_selector = "" <;>
      rcases hea : config.youtube.extra_args with _ | ⟨a, as⟩ <;>
      simp [hpc, hfs, hea] <;>
      by_cases hct : strTrim client = "" <;>
      simp [hct]
  refine ⟨hargs, ?_⟩
  rw [hargs]
  exact List.getLast?_concat _

/-! ## C3 — terminal-status stamping and the row invariant -/

/-- C3: every handler-shaped status write appends the `completed_at`
stamp to the very statement exactly when the new status is terminal,
supplies an error message only on `failed`, and, applied to a
non-terminal row satisfying the spec's invariant, yields a row in which
`completed_at` is non-null iff the status is terminal and
`error_message` is non-null only on `failed`. -/
theorem update_status_invariant (row : UploadLogRow) (s : String)
    (fc : Option Int) (err : Option String) (now : Nat)
    (hshape : handlerStatusWrite s fc err = true)
    (hrow : logInvariant row)
    (hnonterm : terminalStatus row.status = false) :
    (hasSubstr (buildUpdateStatusQuery s fc err) "completed_at = CURRENT_TIMESTAMP" = true ↔
      terminalStatus s = true) ∧
    (terminalStatus s = true →
      (update_upload_log_status row s fc err now).completed_at = some now) ∧
    (err ≠ none → s = "failed") ∧
    logInvariant (update_upload_log_status row s fc err now) := by
  obtain ⟨hiff, herr⟩ := hrow
  have hca : row.completed_at = none := by
    rcases h : row.completed_at with _ | t
    · rfl
    · exact absurd (hiff.mp (by simp [h])) (by simp [hnonterm])
  have hem : row.error_message = none := by
    rcases h : row.error_message with _ | m
    · rfl
    · have hst := herr (by simp [h])
      rw [hst] at hnonterm
      simp [terminalStatus] at hnonterm
  simp only [handlerStatusWrite, Bool.or_eq_true, Bool.and_eq_true, decide_eq_true_eq,
    Option.isNone_iff_eq_none, Option.isSome_iff_exists] at hshape
  rcases hshape with (⟨⟨hs, hfc⟩, herr'⟩ | ⟨⟨hs, hfc⟩, herr'⟩) | ⟨⟨hs, hfc⟩, herr'⟩ <;> subst hs
  · subst hfc; subst herr'
    refine ⟨by decide, ?_, by simp, ?_, ?_⟩
    · intro h
      exact absurd h (by decide)
    · simp [update_upload_log_status, terminalStatus, hca]
    · simp [update_upload_log_status, terminalStatus, hem]
  · obtain ⟨n, hn⟩ := hfc
    subst hn; subst herr'
    have hq : buildUpdateStatusQuery "completed" (some n) none =
        "UPDATE upload_logs SET status = ?, file_count = ?, completed_at = CURRENT_TIMESTAMP WHERE id = ?" :=
      rfl
    refine ⟨by rw [hq]; decide, ?_, by simp, ?_, ?_⟩
    · intro _
      simp [update_upload_log_status, terminalStatus]
    · simp [update_upload_log_status, terminalStatus]
    · simp [update_upload_log_status, hem]
  · obtain ⟨n, hn⟩ := hfc
    obtain ⟨m, hm⟩ := herr'
    subst hn; subst hm
    have hq : buildUpdateStatusQuery "failed" (some n) (some m) =
        "UPDATE upload_logs SET status = ?, file_count = ?, error_message = ?, completed_at = CURRENT_TIMESTAMP WHERE id = ?" :=
      rfl
    refine ⟨by rw [hq]; decide, ?_, by simp, ?_, ?_⟩
    · intro _
      simp [update_upload_log_status, terminalStatus]
    · simp [update_upload_log_status, terminalStatus]
    · simp [update_upload_log_status]

/-- Witness for C3: a `failed` write applied to a fresh `pending` row. -/
theorem update_status_invariant_witness :
    (hasSubstr (buildUpdateStatusQuery "failed" (some 2) (some "boom"))
        "completed_at = CURRENT_TIMESTAMP" = true ↔ terminalStatus "failed" = true) ∧
    (terminalStatus "failed" = true →
      (update_upload_log_status newUploadLogRow "failed" (some 2) (some "boom") 42).completed_at =
        some 42) ∧
    ((some "boom" : Option String) ≠ none → "failed" = "failed") ∧
    logInvariant (update_upload_log_status newUploadLogRow "failed" (some 2) (some "boom") 42) :=
  update_status_invariant newUploadLogRow "failed" (some 2) (some "boom") 42
    (by decide) (by simp [logInvariant, newUploadLogRow, terminalStatus]) (by decide)

/-! ## C1 — URL validation gates both remote handlers -/

/-- C1: in both remote handlers, a trimmed URL failing the kind-specific
prefix allow-list, containing a blacklisted metacharacter, or exceeding
the kind-specific length bound (200 for YouTube, 300 for Spotify) yields
a `BadRequest` with no job row created and no process spawned, while a
URL passing every check proceeds past validation to job creation. -/
theorem url_validation_gate (config : Config) (o : Oracle)
    (user_id url session_id : String) (library_path : Option FsPath)
    (hyt : config.youtube.enabled = true) (hsp : config.spotify.enabled = true)
    (huser : o.getUser = .ok library_path) (hdirs : o.ensureDirsErr = none) :
    ((youtube_url_is_valid (strTrim url) = false ∨ 200 < utf8Len (strTrim url)) →
      (downloadYoutube config o user_id url).response =
        .badRequest "Invalid YouTube URL format. Must be a standard HTTPS YouTube watch URL." ∧
      (downloadYoutube config o user_id url).effects.any isCreateLog = false ∧
      (downloadYoutube config o user_id url).effects.any isSpawn = false) ∧
    (youtube_url_is_valid (strTrim url) = true → utf8Len (strTrim url) ≤ 200 →
      (downloadYoutube config o user_id url).effects.any isCreateLog = true) ∧
    ((spotify_url_is_valid (strTrim url) = false ∨ 300 < utf8Len (strTrim url)) →
      (downloadSpotify config o session_id user_id url).response =
        .badRequest
          "Invalid Spotify URL format. Must be a standard HTTPS Spotify URL (track, album, playlist, or artist)." ∧
      (downloadSpotify config o session_id user_id url).effects.any isCreateLog = false ∧
      (downloadSpotify config o session_id user_id url).effects.any isSpawn = false) ∧
    (spotify_url_is_valid (strTrim url) = true → utf8Len (strTrim url) ≤ 300 →
      (downloadSpotify config o session_id user_id url).effects.any isCreateLog = true) := by
  refine ⟨?_, ?_, ?_, ?_⟩
  · intro h
    have hc : (!youtube_url_is_valid (strTrim url) ||
        decide (utf8Len (strTrim url) > 200)) = true := by
      rcases h with h | h <;> simp [h]
    refine ⟨?_, ?_, ?_⟩ <;>
      simp [downloadYoutube, hyt, huser, hdirs, hc, isCreateLog, isSpawn]
  · intro hv hlen
    have hc : (!youtube_url_is_valid (strTrim url) ||
        decide (utf8Len (strTrim url) > 200)) = false := by
      simp [hv]
      omega
    rcases hcl : o.createLog with e1 | log_id <;>
      rcases hpw : o.processingWrite with e2 | u2 <;>
      rcases hf : o.fetch with e3 | files <;>
      rcases hfer : o.ferric with e4 | u4 <;>
      rcases hcw : o.completedWrite with e5 | u5 <;>
      simp [downloadYoutube, hyt, huser, hdirs, hc, hcl, hpw, hf, hfer, hcw,
        youtube_process_temp_dir, isCreateLog, List.any_append]
  · intro h
    have hc : (!spotify_url_is_valid (strTrim url) ||
        decide (utf8Len (strTrim url) > 300)) = true := by
      rcases h with h | h <;> simp [h]
    refine ⟨?_, ?_, ?_⟩ <;>
      simp [downloadSpotify, hsp, huser, hdirs, hc, isCreateLog, isSpawn]
  · intro hv hlen
    have hc : (!spotify_url_is_valid (strTrim url) ||
        decide (utf8Len (strTrim url) > 300)) = false := by
      simp [hv]
      omega
    rcases hcl : o.createLog with e1 | log_id
    · simp [downloadSpotify, hsp, huser, hdirs, hc, hcl, isCreateLog, List.any_append]
    · rcases hpw : o.processingWrite with e2 | u2
      · simp [downloadSpotify, hsp, huser, hdirs, hc, hcl, hpw, isCreateLog, List.any_append]
      · rcases hf : o.fetch with e3 | files
        · simp [downloadSpotify, hsp, huser, hdirs, hc, hcl, hpw, hf, isCreateLog,
            List.any_append]
        · rcases hproc : spotify_process_temp_dir config o.dbFerricSetting o.ferric
              (get_user_temp_dir config library_path) (get_user_music_dir config library_path)
              (o.tempFiles0 ++ files) with ⟨perr, peffs, ptemp⟩
          rcases perr with _ | e4
          · rcases hcw : o.completedWrite with e5 | u5 <;>
              simp [downloadSpotify, hsp, huser, hdirs, hc, hcl, hpw, hf, hproc, hcw,
                isCreateLog, List.any_append]
          · simp [downloadSpotify, hsp, huser, hdirs, hc, hcl, hpw, hf, hproc,
              isCreateLog, List.any_append]

/-- Witness for C1: a well-formed YouTube URL proceeds to job creation;
a shell-metacharacter URL is rejected by the Spotify handler. -/
theorem url_validation_gate_witness :
    (downloadYoutube sampleConfig sampleOracle "u1" "https://youtu.be/abc").effects.any
      isCreateLog = true ∧
    (downloadSpotify sampleConfig sampleOracle "s1" "u1" "https://evil.com/x;rm -rf").response =
      .badRequest
        "Invalid Spotify URL format. Must be a standard HTTPS Spotify URL (track, album, playlist, or artist)." :=
  ⟨(url_validation_gate sampleConfig sampleOracle "u1" "https://youtu.be/abc" "s1" none
      rfl rfl rfl rfl).2.1 (by decide) (by decide),
    ((url_validation_gate sampleConfig sampleOracle "u1" "https://evil.com/x;rm -rf" "s1" none
      rfl rfl rfl rfl).2.2.1 (Or.inl (by decide))).1⟩

/-! ## C4 — the organizer-enabled flag is consulted by Spotify only -/

/-- Oracle for the C4 counterexample: the runtime store disables the
organizer, everything else succeeds. -/
def c4Oracle : Oracle :=
  { sampleOracle with dbFerricSetting := some false }

/-- Counterexample to C4: a YouTube job whose effective organizer flag is
false still spawns the tagging tool and performs no direct copy — the
YouTube handler never consults the flag, contradicting the claim for the
kind `youtube`. -/
theorem organizer_flag_claim_cx :
    effectiveFerricEnabled sampleConfig c4Oracle.dbFerricSetting = false ∧
    (downloadYoutube sampleConfig c4Oracle "u1" "https://youtu.be/abc").effects.any
      (isFerricSpawn sampleConfig) = true ∧
    (downloadYoutube sampleConfig c4Oracle "u1" "https://youtu.be/abc").effects.any
      isCopy = false := by
  decide

/-- The copy-then-delete effect list of the organizer-disabled branch
contains no process spawn. -/
theorem moveEffects_no_spawn (temp_dir music_dir : FsPath) (files : List String) :
    ((files.map (fun f =>
      [Effect.copyFile (pathPush temp_dir f) (pathPush music_dir f),
        Effect.removeFile (pathPush temp_dir f)])).flatten).any isSpawn = false := by
  induction files with
  | nil => rfl
  | cons f fs ih => simp [ih, isSpawn]

/-- C4 amended: the effective organizer flag is the runtime store value
falling back to the static default, and when it is false the Spotify
handler's processing step copy-then-deletes every plain file with no
tool spawn — but the YouTube handler's processing step spawns the
tagging tool unconditionally. -/
theorem organizer_flag_amended (config : Config) (store : Option Bool) (b : Bool)
    (ferric : Except String Unit) (temp_dir music_dir : FsPath) (tempFiles : List String) :
    (effectiveFerricEnabled config (some b) = b ∧
      effectiveFerricEnabled config none = config.paths.ferric_enabled) ∧
    (effectiveFerricEnabled config store = false →
      spotify_process_temp_dir config store ferric temp_dir music_dir tempFiles =
        ⟨none,
          (tempFiles.map (fun f =>
            [Effect.copyFile (pathPush temp_dir f) (pathPush music_dir f),
              Effect.removeFile (pathPush temp_dir f)])).flatten,
          []⟩ ∧
      (spotify_process_temp_dir config store ferric temp_dir music_dir tempFiles).effects.any
        isSpawn = false) ∧
    (youtube_process_temp_dir config ferric temp_dir music_dir tempFiles).effects.any
      (isFerricSpawn config) = true := by
  refine ⟨⟨rfl, rfl⟩, ?_, ?_⟩
  · intro hoff
    have hshape : spotify_process_temp_dir config store ferric temp_dir music_dir tempFiles =
        ⟨none,
          (tempFiles.map (fun f =>
            [Effect.copyFile (pathPush temp_dir f) (pathPush music_dir f),
              Effect.removeFile (pathPush temp_dir f)])).flatten,
          []⟩ := by
      simp [spotify_process_temp_dir, hoff]
    refine ⟨hshape, ?_⟩
    rw [hshape]
    exact moveEffects_no_spawn temp_dir music_dir tempFiles
  · cases ferric <;> simp [youtube_process_temp_dir, isFerricSpawn, ferricSpawn]

/-- Witness for C4's amended claim at concrete inputs. -/
theorem organizer_flag_amended_witness :
    spotify_process_temp_dir sampleConfig (some false) (.ok ()) ["t"] ["m"] ["a.opus"] =
      ⟨none, [.copyFile ["t", "a.opus"] ["m", "a.opus"], .removeFile ["t", "a.opus"]], []⟩ ∧
    (youtube_process_temp_dir sampleConfig (.ok ()) ["t"] ["m"] ["a.opus"]).effects.any
      (isFerricSpawn sampleConfig) = true :=
  ⟨((organizer_flag_amended sampleConfig (some false) false (.ok ()) ["t"] ["m"]
      ["a.opus"]).2.1 (by decide)).1,
    (organizer_flag_amended sampleConfig (some false) false (.ok ()) ["t"] ["m"]
      ["a.opus"]).2.2⟩

/-! ## C5 — temp-directory draining -/

/-- Oracle for the C5 counterexample: the organizer is enabled and its
run fails. -/
def c5Oracle : Oracle :=
  { sampleOracle with dbFerricSetting := some true, ferric := .error "boom" }

/-- Counterexample to C5: a Spotify job whose tagging step fails ends
with the downloaded plain file still present in `temp_dir` — the temp
directory is not drained on the tagging-failure path. -/
theorem temp_drain_claim_cx :
    (downloadSpotify sampleConfig c5Oracle "s1" "u1"
        "https://open.spotify.com/track/x").tempFiles = ["a.opus"] ∧
    (downloadSpotify sampleConfig c5Oracle "s1" "u1"
        "https://open.spotify.com/track/x").response =
      .internalServerError "Processing failed: Ferric processing failed: boom" := by
  decide

/-- C5 amended: `temp_dir` is drained exactly on the success path — when
the processing step succeeds no plain file remains, while on a fetch
failure the pre-existing and partially fetched files remain. -/
theorem temp_drain_amended (config : Config) (store : Option Bool)
    (ferric : Except String Unit) (temp_dir music_dir : FsPath) (tempFiles : List String)
    (o : Oracle) (user_id url : String) (library_path : Option FsPath) (log_id : Int) :
    ((spotify_process_temp_dir config store ferric temp_dir music_dir tempFiles).err = none →
      (spotify_process_temp_dir config store ferric temp_dir music_dir tempFiles).tempFiles =
        []) ∧
    ((youtube_process_temp_dir config ferric temp_dir music_dir tempFiles).err = none →
      (youtube_process_temp_dir config ferric temp_dir music_dir tempFiles).tempFiles = []) ∧
    (∀ e, o.fetch = .error e → config.youtube.enabled = true →
      o.getUser = .ok library_path → o.ensureDirsErr = none →
      o.createLog = .ok log_id → o.processingWrite = .ok () →
      youtube_url_is_valid (strTrim url) = true → utf8Len (strTrim url) ≤ 200 →
      (downloadYoutube config o user_id url).tempFiles = o.tempFiles0 ++ o.fetchPartial) := by
  refine ⟨?_, ?_, ?_⟩
  · by_cases hfe : effectiveFerricEnabled config store = true <;>
      cases ferric <;>
      simp [spotify_process_temp_dir, hfe]
  · cases ferric <;> simp [youtube_process_temp_dir]
  · intro e hf hyt huser hdirs hcl hpw hv hlen
    have hc : (!youtube_url_is_valid (strTrim url) ||
        decide (utf8Len (strTrim url) > 200)) = false := by
      simp [hv]
      omega
    simp [downloadYoutube, hyt, huser, hdirs, hc, hcl, hpw, hf]

/-- Witness for C5's amended claim at concrete inputs. -/
theorem temp_drain_amended_witness :
    (spotify_process_temp_dir sampleConfig (some true) (.ok ()) ["t"] ["m"]
        ["a.opus"]).tempFiles = [] ∧
    (youtube_process_temp_dir sampleConfig (.ok ()) ["t"] ["m"] ["a.opus"]).tempFiles = [] ∧
    (downloadYoutube sampleConfig
        { sampleOracle with fetch := .error "net down", fetchPartial := ["part.opus"] }
        "u1" "https://youtu.be/abc").tempFiles = [] ++ ["part.opus"] :=
  ⟨(temp_drain_amended sampleConfig (some true) (.ok ()) ["t"] ["m"] ["a.opus"]
        sampleOracle "u1" "u" none 1).1 (by decide),
    (temp_drain_amended sampleConfig (some true) (.ok ()) ["t"] ["m"] ["a.opus"]
        sampleOracle "u1" "u" none 1).2.1 (by decide),
    (temp_drain_amended sampleConfig (some true) (.ok ()) ["t"] ["m"] ["a.opus"]
        { sampleOracle with fetch := .error "net down", fetchPartial := ["part.opus"] }
        "u1" "https://youtu.be/abc" none 1).2.2 "net down" rfl rfl rfl rfl rfl rfl
      (by decide) (by decide)⟩

/-! ## C6 — what precedes a validation rejection -/

/-- Parts for the C6 counterexample: a single file with a disallowed
extension. -/
def c6Parts : List Part := [{ file_name := some "x.exe", size := 10 }]

/-- Counterexample to C6: an upload rejected for a disallowed extension
(a validation error) has already created the job row — rejection does
not precede every job-row creation. -/
theorem early_rejection_claim_cx :
    (uploadFiles sampleConfig sampleOracle "u1" c6Parts).response =
      .badRequest "File type .exe not allowed" ∧
    (uploadFiles sampleConfig sampleOracle "u1" c6Parts).effects.any isCreateLog = true := by
  decide

/-- The effects at the exit of the upload loop contain a job-row
creation whenever the effects at its entry do. -/
theorem uploadLoop_keeps_createLog (config : Config) (log_id : Int) (temp_dir : FsPath) :
    ∀ (parts : List Part) (fc : Nat) (up : List String) (effs : List Effect)
      (temp : List String),
      effs.any isCreateLog = true →
      (match uploadLoop config log_id temp_dir parts fc up effs temp with
        | .aborted _ e _ => e.any isCreateLog = true
        | .done _ _ e _ => e.any isCreateLog = true) := by
  intro parts
  induction parts with
  | nil =>
      intro fc up effs temp h
      simpa [uploadLoop] using h
  | cons part rest ih =>
      intro fc up effs temp h
      rcases hname : part.file_name with _ | name
      · simp only [uploadLoop, hname]
        exact ih _ _ _ _ h
      · rcases hfn : fileNameComponent name with _ | s
        · simp only [uploadLoop, hname, hfn]
          exact h
        · simp only [uploadLoop, hname, hfn]
          cases h1 : (hasSubstr s ".." || strContainsChar s '/' || strContainsChar s '\\')
          · cases h2 : config.upload.allowed_extensions.contains (extensionOf s)
            · simp [List.any_append, h]
            · by_cases h3 : part.size > maxFileSizeBytes config
              · simp [h3, List.any_append, h]
              · simp only [Bool.false_eq_true, Bool.not_true, if_false, h3]
                exact ih _ _ _ _ (by simp [List.any_append, h])
          · simp [List.any_append, h]

/-- C6 amended: remote URL rejections do occur before any job row is
created, but upload part-validation rejections occur after the job row
exists — every upload request getting past its `processing` write has
already created the row, whatever its parts contain. -/
theorem early_rejection_amended (config : Config) (o : Oracle)
    (user_id url session_id : String) (parts : List Part)
    (library_path : Option FsPath) (log_id : Int)
    (huser : o.getUser = .ok library_path) (hdirs : o.ensureDirsErr = none)
    (hcl : o.createLog = .ok log_id) (hpw : o.processingWrite = .ok ()) :
    (youtube_url_is_valid (strTrim url) = false →
      (downloadYoutube config o user_id url).effects.any isCreateLog = false) ∧
    (spotify_url_is_valid (strTrim url) = false →
      (downloadSpotify config o session_id user_id url).effects.any isCreateLog = false) ∧
    (uploadFiles config o user_id parts).effects.any isCreateLog = true := by
  refine ⟨?_, ?_, ?_⟩
  · intro hv
    rcases hyt : config.youtube.enabled with _ | _
    · simp [downloadYoutube, hyt]
    · simp [downloadYoutube, hyt, huser, hdirs, hv, isCreateLog]
  · intro hv
    rcases hsp : config.spotify.enabled with _ | _
    · simp [downloadSpotify, hsp]
    · simp [downloadSpotify, hsp, huser, hdirs, hv, isCreateLog]
  · have hloop := uploadLoop_keeps_createLog config log_id
      (get_user_temp_dir config library_path) parts 0 []
      ([.ensureDir (get_user_music_dir config library_path),
        .ensureDir (get_user_temp_dir config library_path)] ++
        [.createLog user_id "file" "multipart upload",
          .updateStatus log_id "processing" none none])
      o.tempFiles0 (by simp [isCreateLog])
    simp only [uploadFiles, huser, hdirs, hcl, hpw]
    rcases hres : uploadLoop config log_id (get_user_temp_dir config library_path) parts 0 []
        ([.ensureDir (get_user_music_dir config library_path),
          .ensureDir (get_user_temp_dir config library_path)] ++
          [.createLog user_id "file" "multipart upload",
            .updateStatus log_id "processing" none none])
        o.tempFiles0 with ⟨r, e, t⟩ | ⟨fc, up, e, t⟩
    · rw [hres] at hloop ⊢
      simpa using hloop
    · rw [hres] at hloop ⊢
      simp only at hloop
      by_cases hup : up = []
      · simp [hup, List.any_append, hloop]
      · rcases hproc : upload_process_with_ferric config o.dbFerricSetting o.ferric
            (get_user_temp_dir config library_path) (get_user_music_dir config library_path)
            up t with ⟨perr, peffs, ptemp⟩
        rcases perr with _ | e4
        · rcases hcw : o.completedWrite with e5 | u5 <;>
            simp [hup, hproc, hcw, List.any_append, hloop]
        · simp [hup, hproc, List.any_append, hloop]

/-- Witness for C6's amended claim: an unparseable URL creates no row;
the bad-extension upload has already created its row. -/
theorem early_rejection_amended_witness :
    (downloadYoutube sampleConfig sampleOracle "u1" "notaurl").effects.any isCreateLog =
      false ∧
    (uploadFiles sampleConfig sampleOracle "u1" c6Parts).effects.any isCreateLog = true :=
  ⟨(early_rejection_amended sampleConfig sampleOracle "u1" "notaurl" "s1" c6Parts none 1
      rfl rfl rfl rfl).1 (by decide),
    (early_rejection_amended sampleConfig sampleOracle "u1" "notaurl" "s1" c6Parts none 1
      rfl rfl rfl rfl).2.2⟩

/-! ## C7 — per-part upload validation -/

/-- Whether the upload loop lets a part through: parts without a
filename are skipped, and a named part must sanitize, survive the
traversal check, carry an allow-listed extension, and fit the size
bound. -/
def partPasses (config : Config) (p : Part) : Bool :=
  match p.file_name with
  | none => true
  | some name =>
    match fileNameComponent name with
    | none => false
    | some sanitized =>
      !(hasSubstr sanitized ".." || strContainsChar sanitized '/' ||
          strContainsChar sanitized '\\') &&
        config.upload.allowed_extensions.contains (extensionOf sanitized) &&
        !(p.size > maxFileSizeBytes config)

/-- The sanitized names of the parts a passing prefix writes to disk. -/
def acceptedNames (pre : List Part) : List String :=
  pre.filterMap (fun q =>
    match q.file_name with
    | none => none
    | some n => fileNameComponent n)

/-- Running the upload loop over a passing prefix accumulates exactly
that prefix's writes and then continues with the remaining parts. -/
theorem uploadLoop_passes_append (config : Config) (log_id : Int) (temp_dir : FsPath) :
    ∀ (pre parts : List Part) (fc : Nat) (up : List String) (effs : List Effect)
      (temp : List String),
      (∀ q ∈ pre, partPasses config q = true) →
      uploadLoop config log_id temp_dir (pre ++ parts) fc up effs temp =
        uploadLoop config log_id temp_dir parts (fc + (acceptedNames pre).length)
          (up ++ acceptedNames pre)
          (effs ++ (acceptedNames pre).map (fun s => Effect.writeFile (pathPush temp_dir s)))
          (temp ++ acceptedNames pre) := by
  intro pre
  induction pre with
  | nil =>
      intro parts fc up effs temp _
      simp [acceptedNames]
  | cons q pre ih =>
      intro parts fc up effs temp hpass
      have hq := hpass q (List.mem_cons_self q pre)
      have hrest : ∀ r ∈ pre, partPasses config r = true :=
        fun r hr => hpass r (List.mem_cons_of_mem q hr)
      rcases hname : q.file_name with _ | name
      · rw [List.cons_append]
        simp only [uploadLoop, hname]
        rw [ih parts fc up effs temp hrest]
        simp [acceptedNames, hname]
      · rcases hfn : fileNameComponent name with _ | s
        · rw [partPasses, hname] at hq
          simp only [hfn] at hq
          exact absurd hq (by simp)
        · rw [partPasses, hname] at hq
          simp only [hfn, Bool.and_eq_true, Bool.not_eq_true'] at hq
          obtain ⟨⟨h1, h2⟩, h3⟩ := hq
          have h3' : ¬(q.size > maxFileSizeBytes config) := by simpa using h3
          rw [List.cons_append]
          simp only [uploadLoop, hname, hfn, h1, h2, h3', Bool.false_eq_true, if_false,
            Bool.not_true, decide_False, decide_True]
          rw [ih parts (fc + 1) (up ++ [s])
            (effs ++ [Effect.writeFile (pathPush temp_dir s)]) (temp ++ [s]) hrest]
          simp [acceptedNames, hname, hfn, List.append_assoc, Nat.add_comm,
            Nat.add_left_comm, Nat.add_assoc]

/-- C7: for a multipart job whose parts up to `p` all pass, if `p`'s
sanitized last path component contains a traversal pattern, or its
extension is outside the allow-list, or its size exceeds the configured
maximum, the job is transitioned to `failed` with that specific message
as the final effect (nothing further is processed) and the request is
answered with that `BadRequest`. -/
theorem upload_part_validation (config : Config) (o : Oracle) (user_id : String)
    (pre rest : List Part) (p : Part) (name s : String)
    (library_path : Option FsPath) (log_id : Int)
    (huser : o.getUser = .ok library_path) (hdirs : o.ensureDirsErr = none)
    (hcl : o.createLog = .ok log_id) (hpw : o.processingWrite = .ok ())
    (hpre : ∀ q ∈ pre, partPasses config q = true)
    (hname : p.file_name = some name) (hfn : fileNameComponent name = some s) :
    ((hasSubstr s ".." || strContainsChar s '/' || strContainsChar s '\\') = true →
      (uploadFiles config o user_id (pre ++ p :: rest)).response =
        .badRequest "Invalid filename: path traversal attempt detected" ∧
      ∃ effs0, (uploadFiles config o user_id (pre ++ p :: rest)).effects =
        effs0 ++ [.updateStatus log_id "failed" (some ((acceptedNames pre).length : Int))
          (some "Invalid filename: path traversal attempt detected")]) ∧
    ((hasSubstr s ".." || strContainsChar s '/' || strContainsChar s '\\') = false →
      config.upload.allowed_extensions.contains (extensionOf s) = false →
      (uploadFiles config o user_id (pre ++ p :: rest)).response =
        .badRequest ("File type ." ++ extensionOf s ++ " not allowed") ∧
      ∃ effs0, (uploadFiles config o user_id (pre ++ p :: rest)).effects =
        effs0 ++ [.updateStatus log_id "failed" (some ((acceptedNames pre).length : Int))
          (some ("File type ." ++ extensionOf s ++ " not allowed"))]) ∧
    ((hasSubstr s ".." || strContainsChar s '/' || strContainsChar s '\\') = false →
      config.upload.allowed_extensions.contains (extensionOf s) = true →
      p.size > maxFileSizeBytes config →
      (uploadFiles config o user_id (pre ++ p :: rest)).response =
        .badRequest ("File too large: " ++ natToString (p.size / 1024 / 1024) ++
          " MB (max: " ++ natToString config.upload.max_file_size_mb ++ " MB)") ∧
      ∃ effs0, (uploadFiles config o user_id (pre ++ p :: rest)).effects =
        effs0 ++ [.updateStatus log_id "failed" (some ((acceptedNames pre).length : Int))
          (some ("File too large: " ++ natToString (p.size / 1024 / 1024) ++
            " MB (max: " ++ natToString config.upload.max_file_size_mb ++ " MB)"))]) := by
  have hrw := uploadLoop_passes_append config log_id (get_user_temp_dir config library_path)
    pre (p :: rest) 0 []
    ([.ensureDir (get_user_music_dir config library_path),
      .ensureDir (get_user_temp_dir config library_path)] ++
      [.createLog user_id "file" "multipart upload",
        .updateStatus log_id "processing" none none])
    o.tempFiles0 hpre
  refine ⟨?_, ?_, ?_⟩
  · intro hv
    simp only [uploadFiles, huser, hdirs, hcl, hpw]
    rw [hrw]
    simp only [uploadLoop, hname, hfn, hv, if_true]
    refine ⟨by first | rfl | trivial,
      [Effect.ensureDir (get_user_music_dir config library_path),
        Effect.ensureDir (get_user_temp_dir config library_path),
        Effect.createLog user_id "file" "multipart upload",
        Effect.updateStatus log_id "processing" none none] ++
        (acceptedNames pre).map (fun t => Effect.writeFile
          (pathPush (get_user_temp_dir config library_path) t)), by simp⟩
  · intro hv hext
    simp only [uploadFiles, huser, hdirs, hcl, hpw]
    rw [hrw]
    simp only [uploadLoop, hname, hfn, hv, hext, Bool.false_eq_true, if_false,
      Bool.not_false, if_true]
    refine ⟨by first | rfl | trivial,
      [Effect.ensureDir (get_user_music_dir config library_path),
        Effect.ensureDir (get_user_temp_dir config library_path),
        Effect.createLog user_id "file" "multipart upload",
        Effect.updateStatus log_id "processing" none none] ++
        (acceptedNames pre).map (fun t => Effect.writeFile
          (pathPush (get_user_temp_dir config library_path) t)), by simp⟩
  · intro hv hext hsize
    simp only [uploadFiles, huser, hdirs, hcl, hpw]
    rw [hrw]
    simp only [uploadLoop, hname, hfn, hv, hext, hsize, Bool.false_eq_true, if_false,
      Bool.not_true, if_true]
    refine ⟨by first | rfl | trivial,
      [Effect.ensureDir (get_user_music_dir config library_path),
        Effect.ensureDir (get_user_temp_dir config library_path),
        Effect.createLog user_id "file" "multipart upload",
        Effect.updateStatus log_id "processing" none none] ++
        (acceptedNames pre).map (fun t => Effect.writeFile
          (pathPush (get_user_temp_dir config library_path) t)), by simp⟩

/-- Witness for C7: a traversal name, a disallowed extension, and an
oversized file, each as the sole part of a concrete upload. -/
theorem upload_part_validation_witness :
    (uploadFiles sampleConfig sampleOracle "u1"
        [{ file_name := some "a\\b.mp3", size := 1 }]).response =
      .badRequest "Invalid filename: path traversal attempt detected" ∧
    (uploadFiles sampleConfig sampleOracle "u1"
        [{ file_name := some "x.exe", size := 1 }]).response =
      .badRequest "File type .exe not allowed" ∧
    (uploadFiles sampleConfig sampleOracle "u1"
        [{ file_name := some "big.mp3", size := 524288001 }]).response =
      .badRequest "File too large: 500 MB (max: 500 MB)" :=
  ⟨((upload_part_validation sampleConfig sampleOracle "u1" [] []
        { file_name := some "a\\b.mp3", size := 1 } "a\\b.mp3" "a\\b.mp3" none 1
        rfl rfl rfl rfl (by intro q hq; cases hq) rfl (by decide)).1 (by decide)).1,
    ((upload_part_validation sampleConfig sampleOracle "u1" [] []
        { file_name := some "x.exe", size := 1 } "x.exe" "x.exe" none 1
        rfl rfl rfl rfl (by intro q hq; cases hq) rfl (by decide)).2.1 (by decide)
      (by decide)).1,
    ((upload_part_validation sampleConfig sampleOracle "u1" [] []
        { file_name := some "big.mp3", size := 524288001 } "big.mp3" "big.mp3" none 1
        rfl rfl rfl rfl (by intro q hq; cases hq) rfl (by decide)).2.2 (by decide)
      (by decide) (by decide)).1⟩

/-! ## C8 — storage-failure policy for status writes -/

/-- C8: a storage failure while recording `failed` is swallowed — the
handler still returns the original error (YouTube fetch failure) or the
original validation rejection (upload) — while a storage failure while
recording `processing` aborts before any process is spawned and one
while recording `completed` aborts the request with an internal error. -/
theorem status_write_failure_policy (config : Config) (o : Oracle)
    (user_id url : String) (library_path : Option FsPath) (log_id : Int)
    (hyt : config.youtube.enabled = true)
    (huser : o.getUser = .ok library_path) (hdirs : o.ensureDirsErr = none)
    (hcl : o.createLog = .ok log_id)
    (hv : youtube_url_is_valid (strTrim url) = true)
    (hlen : utf8Len (strTrim url) ≤ 200) :
    (∀ e w, o.fetch = .error e → o.failedWrite = .error w → o.processingWrite = .ok () →
      (downloadYoutube config o user_id url).response =
        .internalServerError ("Download failed: " ++ ("yt-dlp failed: " ++ e))) ∧
    (∀ w, o.processingWrite = .error w →
      (downloadYoutube config o user_id url).response =
        .internalServerError ("Failed to update log: " ++ w) ∧
      (downloadYoutube config o user_id url).effects.any isSpawn = false) ∧
    (∀ files w, o.fetch = .ok files → o.ferric = .ok () → o.processingWrite = .ok () →
      o.completedWrite = .error w →
      (downloadYoutube config o user_id url).response =
        .internalServerError ("Failed to update log: " ++ w)) ∧
    (∀ (p : Part) (n s : String) (w : String), o.failedWrite = .error w →
      o.processingWrite = .ok () →
      p.file_name = some n → fileNameComponent n = some s →
      (hasSubstr s ".." || strContainsChar s '/' || strContainsChar s '\\') = false →
      config.upload.allowed_extensions.contains (extensionOf s) = false →
      (uploadFiles config o user_id [p]).response =
        .badRequest ("File type ." ++ extensionOf s ++ " not allowed")) := by
  have hc : (!youtube_url_is_valid (strTrim url) ||
      decide (utf8Len (strTrim url) > 200)) = false := by
    simp [hv]
    omega
  refine ⟨?_, ?_, ?_, ?_⟩
  · intro e w hf hfw hpw
    simp [downloadYoutube, hyt, huser, hdirs, hc, hcl, hpw, hf]
  · intro w hpw
    constructor
    · simp [downloadYoutube, hyt, huser, hdirs, hc, hcl, hpw]
    · simp [downloadYoutube, hyt, huser, hdirs, hc, hcl, hpw, isSpawn]
  · intro files w hf hfer hpw hcw
    simp [downloadYoutube, hyt, huser, hdirs, hc, hcl, hpw, hf, hfer, hcw,
      youtube_process_temp_dir]
  · intro p n s w hfw hpw hn hfn h1 h2
    simp only [uploadFiles, huser, hdirs, hcl, hpw, uploadLoop, hn, hfn, h1, h2,
      Bool.false_eq_true, if_false, Bool.not_false, if_true]

/-- Witness for C8: each branch of the policy at a concrete oracle. -/
theorem status_write_failure_policy_witness :
    (downloadYoutube sampleConfig
        { sampleOracle with fetch := .error "boom", failedWrite := .error "db gone" }
        "u1" "https://youtu.be/abc").response =
      .internalServerError ("Download failed: " ++ ("yt-dlp failed: " ++ "boom")) ∧
    (downloadYoutube sampleConfig
        { sampleOracle with processingWrite := .error "db gone" }
        "u1" "https://youtu.be/abc").response =
      .internalServerError ("Failed to update log: " ++ "db gone") ∧
    (downloadYoutube sampleConfig
        { sampleOracle with completedWrite := .error "db gone" }
        "u1" "https://youtu.be/abc").response =
      .internalServerError ("Failed to update log: " ++ "db gone") ∧
    (uploadFiles sampleConfig { sampleOracle with failedWrite := .error "db gone" }
        "u1" [{ file_name := some "x.exe", size := 1 }]).response =
      .badRequest ("File type ." ++ extensionOf "x.exe" ++ " not allowed") :=
  ⟨(status_write_failure_policy sampleConfig
        { sampleOracle with fetch := .error "boom", failedWrite := .error "db gone" }
        "u1" "https://youtu.be/abc" none 1 rfl rfl rfl rfl (by decide) (by decide)).1
      "boom" "db gone" rfl rfl rfl,
    ((status_write_failure_policy sampleConfig
        { sampleOracle with processingWrite := .error "db gone" }
        "u1" "https://youtu.be/abc" none 1 rfl rfl rfl rfl (by decide) (by decide)).2.1
      "db gone" rfl).1,
    (status_write_failure_policy sampleConfig
        { sampleOracle with completedWrite := .error "db gone" }
        "u1" "https://youtu.be/abc" none 1 rfl rfl rfl rfl (by decide) (by decide)).2.2.1
      ["a.opus"] "db gone" rfl rfl rfl rfl,
    (status_write_failure_policy sampleConfig
        { sampleOracle with failedWrite := .error "db gone" }
        "u1" "https://youtu.be/abc" none 1 rfl rfl rfl rfl (by decide) (by decide)).2.2.2
      { file_name := some "x.exe", size := 1 } "x.exe" "x.exe" "db gone" rfl rfl rfl
      (by decide) (by decide) (by decide)⟩

end MusicUpload
